import Mathlib

/-!
Shallow embedding of the Concurrent Fetch Orchestrator of `src/main.py`
(a tkinter + yt-dlp batch audio downloader).

Python dictionaries keyed by tree row ids become association lists
`List (Nat × α)`; the Tk treeview rows, the `item_paths` dict and the
`item_progress` dict of the `DownloadApp` class are mirrored as three such
lists inside `AppState`.  Numeric progress values (Python floats holding
percentages) are modelled as rationals; the round trip through the formatted
percent string (`f"{p:.1f}%"` and `float(s.strip("%"))`) is presentation and
is modelled as the identity on the numeric value.  The external engines
(yt-dlp's extractor and downloader) are parameters: the id extractor is an
abstract `String → Option String` (`none` models the `except` branch), and an
engine run is a list of progress-hook events interleaved with user
cancellation, followed by a terminal result.
-/

/-- Python `dict.get`. -/
def dictGet {α : Type} (k : Nat) : List (Nat × α) → Option α
  | [] => none
  | (k', v) :: rest => if k = k' then some v else dictGet k rest

/-- Python `dict[k] = v`: overwrite in place if the key exists, append otherwise. -/
def dictSet {α : Type} (k : Nat) (v : α) : List (Nat × α) → List (Nat × α)
  | [] => [(k, v)]
  | (k', v') :: rest => if k = k' then (k, v) :: rest else (k', v') :: dictSet k v rest

/-- Python `dict.pop(k, None)`. -/
def dictPop {α : Type} (k : Nat) : List (Nat × α) → List (Nat × α)
  | [] => []
  | (k', v') :: rest => if k = k' then rest else (k', v') :: dictPop k rest

/-- Embeds `MAX_WORKERS = 4` (src/main.py line 21). -/
def MAX_WORKERS : Nat := 4

/-- Python truthiness of an optional string: `None` and `""` are falsy. -/
def pyTruthyStr : Option String → Bool
  | none => false
  | some s => !(s == "")

/-- Python `a or b` on optional strings (empty string is falsy). -/
def pyOrStr (a b : Option String) : Option String :=
  if pyTruthyStr a then a else b

/-- Python `a or b` where `a` is an optional number and `b` a number
(`None` and `0` are falsy). -/
def pyOrQ (a : Option ℚ) (b : ℚ) : ℚ :=
  match a with
  | none => b
  | some x => if x = 0 then b else x

/-- One row of the Tk treeview: `(title, url, progress, status)` columns
(the constant "Show"/"Retry" button cells are presentation and omitted). -/
structure Row where
  title : String
  url : String
  progress : ℚ
  status : String
deriving Repr, DecidableEq

/-- The mutable state of `DownloadApp`: the treeview rows, the
`item_paths` and `item_progress` dicts, the `cancelled` flag and the
global progress bar value.  `nextId` models Tk's generation of fresh row
ids by `tree.insert`. -/
structure AppState where
  rows : List (Nat × Row)
  item_paths : List (Nat × Option String)
  item_progress : List (Nat × ℚ)
  cancelled : Bool
  global_progress : ℚ
  nextId : Nat
deriving Repr, DecidableEq

/-- Tests whether `p` is a prefix of the string `s` (on the underlying character lists,
so that concrete instances evaluate in the kernel). -/
def strHasPrefix (p s : String) : Bool :=
  List.isPrefixOf p.toList s.toList

/-- Tests whether `p` is a suffix of the string `s`. -/
def strHasSuffix (p s : String) : Bool :=
  List.isSuffixOf p.toList s.toList

/-- Embeds `find_existing_path` (src/main.py lines 25-33).  The id extractor
`extractId` stands for `YoutubeIE.extract_id` wrapped in `try/except`
(`none` when extraction raises).  The directory is the list of file names
in it, in iteration order; `dest_dir.glob(f"{video_id} - *.mp3")` keeps the
names that start with `"<id> - "` and end with `".mp3"` (for ids without
glob metacharacters, as platform ids are, the glob is exactly this prefix
and suffix test), and the `for`/`return` takes the first match. -/
def find_existing_path (extractId : String → Option String) (url : String)
    (destFiles : List String) : Option String :=
  match extractId url with
  | none => none
  | some vid =>
      destFiles.find? (fun f => strHasPrefix (vid ++ " - ") f && strHasSuffix ".mp3" f)

/-- Embeds `_update_global_progress` (lines 370-375): the progress bar value becomes
the unweighted mean of `item_progress.values()`, and 0 for an empty dict. -/
def _update_global_progress (st : AppState) : AppState :=
  if st.item_progress.isEmpty then
    { st with global_progress := 0 }
  else
    { st with global_progress :=
        (st.item_progress.map Prod.snd).sum / (st.item_progress.length : ℚ) }

/-- Embeds `_update_row` (lines 291-315): update the optionally given title /
progress / status cells of one row, mirror a given progress into
`item_progress`, then recompute the global progress.  When the row id is no
longer in the tree, `tree.item` raises before any mutation and the Tk
callback swallows the error, so the state is unchanged.  (The string
round trip of progress and the "Retry" cell rewrite on error statuses are
presentation.) -/
def _update_row (itemId : Nat) (title : Option String) (progress : Option ℚ)
    (status : Option String) (st : AppState) : AppState :=
  match dictGet itemId st.rows with
  | none => st
  | some row =>
      let row := { row with title := title.getD row.title }
      let row := match progress with
        | some p => { row with progress := p }
        | none => row
      let prog := match progress with
        | some p => dictSet itemId p st.item_progress
        | none => st.item_progress
      let row := match status with
        | some s => { row with status := s }
        | none => row
      _update_global_progress
        { st with rows := dictSet itemId row st.rows, item_progress := prog }

/-- Embeds `_set_item_path` (lines 317-318). -/
def _set_item_path (itemId : Nat) (path : String) (st : AppState) : AppState :=
  { st with item_paths := dictSet itemId (some path) st.item_paths }

/-- Embeds `_add_row` (lines 145-155): insert a fresh row at the end of the tree and
seed `item_paths`/`item_progress`; returns the new item id as `tree.insert`
does.  The global progress is NOT recomputed here (the source does not). -/
def _add_row (title url : String) (progress : ℚ) (status : String)
    (st : AppState) : AppState × Nat :=
  let i := st.nextId
  ({ st with
      rows := st.rows ++ [(i, { title := title, url := url,
                                progress := progress, status := status })],
      item_paths := dictSet i none st.item_paths,
      item_progress := dictSet i progress st.item_progress,
      nextId := i + 1 }, i)

/-- Embeds `cancel_downloads` (lines 233-236): set the process-wide flag (the status
label and button state are presentation). -/
def cancel_downloads (st : AppState) : AppState :=
  { st with cancelled := true }

/-- The synchronous part of `start_downloads` (lines 202-215): with no rows
it only shows a message box; otherwise every row is reset to
queued/0%, the global bar is zeroed, and the `cancelled` flag is cleared
before the `_run_downloads` worker thread is spawned. -/
def start_downloads (st : AppState) : AppState :=
  let ids := st.rows.map Prod.fst
  if ids.isEmpty then st
  else
    let st := ids.foldl
      (fun s i => _update_row i none (some 0) (some "queued") s) st
    { st with global_progress := 0, cancelled := false }

/-- The synchronous part of `_retry_item` (lines 331-339): reset the row to
queued/0% and spawn a dedicated `threading.Thread` running `_download_item`
for that single item.  Note: the `cancelled` flag is not touched here. -/
def _retry_item (itemId : Nat) (st : AppState) : AppState :=
  _update_row itemId none (some 0) (some "queued") st

/-- One `d` dict delivered by yt-dlp to the progress hook. -/
structure HookEvent where
  status : String
  total_bytes : Option ℚ
  total_bytes_estimate : Option ℚ
  downloaded_bytes : Option ℚ
deriving Repr, DecidableEq

/-- Embeds `progress_hook` (lines 239-251), the closure inside `_download_item`.
Returns the state after the call together with the message of the
`DownloadCancelled` exception when the hook raises (raising happens before
any mutation of that call). -/
def progress_hook (itemId : Nat) (d : HookEvent) (st : AppState) :
    AppState × Option String :=
  if st.cancelled then (st, some "User cancelled")
  else if d.status = "downloading" then
    let total := pyOrQ d.total_bytes (pyOrQ d.total_bytes_estimate 1)
    let downloaded := d.downloaded_bytes.getD 0
    let percent := downloaded / total
    (_update_row itemId none (some (percent * 100)) (some "downloading") st, none)
  else if d.status = "finished" then
    (_update_row itemId none (some 100) (some "postprocessing") st, none)
  else if d.status = "error" then
    (_update_row itemId none (some 0) (some "error") st, none)
  else (st, none)

/-- One observable step during an engine call: either the user presses
Cancel (running `cancel_downloads` concurrently), or the engine invokes the
progress hook with an event. -/
inductive FetchStep where
  | userCancel : FetchStep
  | hook : HookEvent → FetchStep
deriving Repr, DecidableEq

/-- Run the steps observed during one `ydl.extract_info(url, download=True)`
call in order.  A hook that raises aborts the engine call; the second
component carries the exception message. -/
def processSteps (itemId : Nat) (steps : List FetchStep) (st : AppState) :
    AppState × Option String :=
  match steps with
  | [] => (st, none)
  | FetchStep.userCancel :: rest => processSteps itemId rest (cancel_downloads st)
  | FetchStep.hook d :: rest =>
      match progress_hook itemId d st with
      | (st', none) => processSteps itemId rest st'
      | (st', some m) => (st', some m)

/-- The behaviour of one engine call: the interleaved steps, and the terminal
outcome when no hook raised first — `Except.ok filename` for a successful
`extract_info`/`prepare_filename`, `Except.error msg` for an engine
exception whose string form is `msg`. -/
structure FetchRun where
  steps : List FetchStep
  result : Except String String
deriving Repr

/-- Embeds `Path(filename).with_suffix(".mp3")` (line 285), for ordinary file names
with a dot-separated extension. -/
def with_suffix_mp3 (filename : String) : String :=
  let parts := filename.splitOn "."
  if parts.length ≤ 1 then filename ++ ".mp3"
  else String.intercalate "." parts.dropLast ++ ".mp3"

/-- Embeds `_download_item` (lines 238-289).  Returns the new state and whether the
external fetch engine (`yt_dlp.YoutubeDL(...)`) was invoked.  Branches, in
source order: a file found by `find_existing_path` records the path and
skips; an already-set `cancelled` flag records `cancelled`; otherwise the
engine runs — a raising hook or a failing engine lands in the
`except Exception` arm recording `error: <msg>` with progress 0, and a
successful run records the path and `done`/100. -/
def _download_item (extractId : String → Option String) (destFiles : List String)
    (itemId : Nat) (url : String) (run : FetchRun) (st : AppState) :
    AppState × Bool :=
  match find_existing_path extractId url destFiles with
  | some p =>
      let st := _set_item_path itemId p st
      (_update_row itemId none (some 100) (some "skipped (exists)") st, false)
  | none =>
      if st.cancelled then
        (_update_row itemId none (some 0) (some "cancelled") st, false)
      else
        match processSteps itemId run.steps st with
        | (st', some m) =>
            (_update_row itemId none (some 0) (some ("error: " ++ m)) st', true)
        | (st', none) =>
            match run.result with
            | Except.ok filename =>
                let final_path := with_suffix_mp3 filename
                let st' := _set_item_path itemId final_path st'
                (_update_row itemId none (some 100) (some "done") st', true)
            | Except.error m =>
                (_update_row itemId none (some 0) (some ("error: " ++ m)) st', true)

/-- One entry of a playlist info dict, as read by `_process_url`. -/
structure Entry where
  url : Option String
  id : Option String
  title : Option String
deriving Repr, DecidableEq

/-- The info dict returned by flat extraction (only the keys `_process_url`
reads). -/
structure InfoDict where
  typ : Option String
  entries : Option (List Entry)
  title : Option String
deriving Repr, DecidableEq

/-- Outcome of `ydl.extract_info(url, download=False)` in `_process_url`:
it raises, returns `None`, or returns an info dict. -/
inductive ResolveResult where
  | raises : ResolveResult
  | noneResult : ResolveResult
  | ok : InfoDict → ResolveResult
deriving Repr

/-- The loop body of lines 184-191 for one playlist entry: `None` when the
entry is skipped (`entry.get("url") or entry.get("id")` falsy), otherwise
the `(title, url)` pair of the row to add, with shorthand ids expanded to
full watch URLs and the title falling back to the expanded url. -/
def childRow (e : Entry) : Option (String × String) :=
  match pyOrStr e.url e.id with
  | none => none
  | some u =>
      if u = "" then none
      else
        let u := if strHasPrefix "http" u then u
                 else "https://www.youtube.com/watch?v=" ++ u
        let t := match pyOrStr e.title (some u) with
          | some t => t
          | none => u
        some (t, u)

/-- Embeds `tree.delete(item_id)` plus the two `pop` calls of the
`remove_placeholder` closure (lines 178-181). -/
def remove_placeholder (itemId : Nat) (st : AppState) : AppState :=
  { st with rows := dictPop itemId st.rows,
            item_paths := dictPop itemId st.item_paths,
            item_progress := dictPop itemId st.item_progress }

/-- Embeds `_process_url` (lines 157-194), given the outcome of flat extraction.
On an exception or a `None` info the row keeps its url as title; a playlist
with a truthy `entries` list replaces the placeholder row by one fresh
row per usable entry (the `after(0, ...)` callbacks run in FIFO order on
the Tk thread, so removal precedes the additions); anything else is a
single item whose title falls back to the url. -/
def _process_url (itemId : Nat) (url : String) (res : ResolveResult)
    (st : AppState) : AppState :=
  match res with
  | ResolveResult.raises => _update_row itemId (some url) none none st
  | ResolveResult.noneResult => _update_row itemId (some url) none none st
  | ResolveResult.ok info =>
      if info.typ = some "playlist" ∧ info.entries.getD [] ≠ [] then
        let st := remove_placeholder itemId st
        (info.entries.getD []).foldl
          (fun s e =>
            match childRow e with
            | none => s
            | some (t, u) => (_add_row t u 0 "pending" s).1) st
      else
        let t := match pyOrStr info.title (some url) with
          | some t => t
          | none => url
        _update_row itemId (some t) none none st

/-- A concurrency snapshot of the process: ids submitted to the
`ThreadPoolExecutor(max_workers=MAX_WORKERS)` of `_run_downloads` but not yet
started, ids whose `_download_item` currently runs on a pool worker, and ids
whose `_download_item` currently runs on a dedicated `threading.Thread`
spawned by `_retry_item`. -/
structure Sched where
  pendingBatch : List Nat
  activeBatch : List Nat
  activeRetry : List Nat
deriving Repr, DecidableEq

/-- Interleaving steps of the two dispatch mechanisms in the source:
the executor starts a submitted task only while fewer than `MAX_WORKERS`
of its tasks run (`dispatch`), and a task eventually finishes
(`finishBatch`); `_retry_item` starts a plain `threading.Thread` with no
admission condition at all (`startRetry`), which also eventually finishes
(`finishRetry`). -/
inductive SchedStep : Sched → Sched → Prop where
  | dispatch (s : Sched) (i : Nat) (hm : i ∈ s.pendingBatch)
      (hW : s.activeBatch.length < MAX_WORKERS) :
      SchedStep s { s with pendingBatch := s.pendingBatch.erase i,
                           activeBatch := i :: s.activeBatch }
  | finishBatch (s : Sched) (i : Nat) (hm : i ∈ s.activeBatch) :
      SchedStep s { s with activeBatch := s.activeBatch.erase i }
  | startRetry (s : Sched) (i : Nat) :
      SchedStep s { s with activeRetry := i :: s.activeRetry }
  | finishRetry (s : Sched) (i : Nat) (hm : i ∈ s.activeRetry) :
      SchedStep s { s with activeRetry := s.activeRetry.erase i }

/-- The snapshot at the start of `_run_downloads`: the whole batch submitted,
nothing running yet. -/
def initSched (batch : List Nat) : Sched :=
  { pendingBatch := batch, activeBatch := [], activeRetry := [] }

/-- Reachability of one snapshot from another by interleaving steps. -/
def SchedReachable (init s : Sched) : Prop :=
  Relation.ReflTransGen SchedStep init s

/-- Number of `_download_item` invocations currently running, on pool
workers or on retry threads. -/
def activeCount (s : Sched) : Nat :=
  s.activeBatch.length + s.activeRetry.length

/-- The rows that the playlist branch of `_process_url` appends for a list of
entries, when the next fresh tree id is `n`: one row per entry whose
`url`-or-`id` is truthy, in order, with consecutive fresh ids. -/
def addedRows (n : Nat) : List Entry → List (Nat × Row)
  | [] => []
  | e :: rest =>
      match childRow e with
      | none => addedRows n rest
      | some tu =>
          (n, { title := tu.1, url := tu.2, progress := 0, status := "pending" }) ::
            addedRows (n + 1) rest

/-- Fixture: a row mid-download at 40 percent. -/
def exRow : Row :=
  { title := "Title", url := "https://w/v", progress := 40, status := "downloading" }

/-- Fixture: a registry holding `exRow` under id 0, not cancelled. -/
def exState : AppState :=
  { rows := [(0, exRow)], item_paths := [(0, none)], item_progress := [(0, 40)],
    cancelled := false, global_progress := 40, nextId := 1 }

/-- Fixture: the same registry after the user pressed Cancel. -/
def exStateCancelled : AppState :=
  { exState with cancelled := true }

/-- Fixture: a registry holding one failed row, with a cancellation pending. -/
def exErrorStateCancelled : AppState :=
  { rows := [(0, { title := "Title", url := "https://w/v", progress := 0,
                   status := "error: boom" })],
    item_paths := [(0, none)], item_progress := [(0, 0)],
    cancelled := true, global_progress := 0, nextId := 1 }

/-- Fixture: a registry holding one placeholder row awaiting resolution. -/
def exPlaceholderState : AppState :=
  { rows := [(0, { title := "Resolving...", url := "P", progress := 0,
                   status := "pending" })],
    item_paths := [(0, none)], item_progress := [(0, 0)],
    cancelled := false, global_progress := 0, nextId := 1 }

/-- Fixture: a `downloading` hook event at 40 of 100 bytes. -/
def exHook40 : HookEvent :=
  { status := "downloading", total_bytes := some 100,
    total_bytes_estimate := none, downloaded_bytes := some 40 }

/-!  Helper lemmas about the dictionary operations and the registry
operations.  -/

theorem dictGet_dictSet_self {α : Type} (k : Nat) (v : α) (l : List (Nat × α)) :
    dictGet k (dictSet k v l) = some v := by
  induction l with
  | nil => simp [dictGet, dictSet]
  | cons hd tl ih =>
      by_cases h : k = hd.1
      · simp [dictGet, dictSet, h]
      · simpa [dictGet, dictSet, h] using ih

theorem length_dictSet_of_mem {α : Type} (k : Nat) (v w : α) (l : List (Nat × α))
    (h : dictGet k l = some w) : (dictSet k v l).length = l.length := by
  induction l with
  | nil => simp [dictGet] at h
  | cons hd tl ih =>
      by_cases hk : k = hd.1
      · simp [dictSet, hk]
      · simp [dictGet, hk] at h
        simp [dictSet, hk, ih h]

theorem ugp_rows (st : AppState) : (_update_global_progress st).rows = st.rows := by
  unfold _update_global_progress
  split <;> rfl

theorem ugp_item_paths (st : AppState) :
    (_update_global_progress st).item_paths = st.item_paths := by
  unfold _update_global_progress
  split <;> rfl

theorem ugp_item_progress (st : AppState) :
    (_update_global_progress st).item_progress = st.item_progress := by
  unfold _update_global_progress
  split <;> rfl

theorem ugp_cancelled (st : AppState) :
    (_update_global_progress st).cancelled = st.cancelled := by
  unfold _update_global_progress
  split <;> rfl

theorem ugp_global (st : AppState) :
    (_update_global_progress st).global_progress =
      (if st.item_progress.isEmpty then 0
       else (st.item_progress.map Prod.snd).sum / (st.item_progress.length : ℚ)) := by
  unfold _update_global_progress
  split <;> simp_all

theorem update_row_of_absent (i : Nat) (t : Option String) (p : Option ℚ)
    (s : Option String) (st : AppState) (h : dictGet i st.rows = none) :
    _update_row i t p s st = st := by
  unfold _update_row
  rw [h]

theorem update_row_rows (i : Nat) (t : Option String) (p : Option ℚ)
    (s : Option String) (st : AppState) (r : Row) (h : dictGet i st.rows = some r) :
    (_update_row i t p s st).rows =
      dictSet i { r with title := t.getD r.title, progress := p.getD r.progress,
                         status := s.getD r.status } st.rows := by
  unfold _update_row
  rw [h]
  cases p <;> cases s <;> simp [ugp_rows]

theorem update_row_item_paths (i : Nat) (t : Option String) (p : Option ℚ)
    (s : Option String) (st : AppState) :
    (_update_row i t p s st).item_paths = st.item_paths := by
  unfold _update_row
  cases h : dictGet i st.rows
  · rfl
  · cases p <;> cases s <;> simp [ugp_item_paths]

theorem update_row_item_progress (i : Nat) (t : Option String) (p : ℚ)
    (s : Option String) (st : AppState) (r : Row) (h : dictGet i st.rows = some r) :
    (_update_row i t (some p) s st).item_progress = dictSet i p st.item_progress := by
  unfold _update_row
  rw [h]
  cases s <;> simp [ugp_item_progress]

theorem update_row_cancelled (i : Nat) (t : Option String) (p : Option ℚ)
    (s : Option String) (st : AppState) :
    (_update_row i t p s st).cancelled = st.cancelled := by
  unfold _update_row
  cases h : dictGet i st.rows
  · rfl
  · cases p <;> cases s <;> simp [ugp_cancelled]

theorem dictGet_update_row_self (i : Nat) (t : Option String) (p : Option ℚ)
    (s : Option String) (st : AppState) :
    dictGet i (_update_row i t p s st).rows =
      (dictGet i st.rows).map
        (fun r => { r with title := t.getD r.title, progress := p.getD r.progress,
                           status := s.getD r.status }) := by
  cases h : dictGet i st.rows
  · rw [update_row_of_absent i t p s st h, h]
    rfl
  · rw [update_row_rows i t p s st _ h, dictGet_dictSet_self]
    rfl

theorem processSteps_append (i : Nat) (a b : List FetchStep) (st : AppState) :
    processSteps i (a ++ b) st =
      (match processSteps i a st with
       | (st', none) => processSteps i b st'
       | (st', some m) => (st', some m)) := by
  induction a generalizing st with
  | nil => rfl
  | cons hd tl ih =>
      cases hd with
      | userCancel => simpa [processSteps] using ih (cancel_downloads st)
      | hook d =>
          simp only [List.cons_append, processSteps]
          cases hhook : progress_hook i d st with
          | mk st' m =>
              cases m with
              | none => simpa using ih st'
              | some msg => simp

theorem progress_hook_of_cancelled (i : Nat) (d : HookEvent) (st : AppState)
    (h : st.cancelled = true) : progress_hook i d st = (st, some "User cancelled") := by
  unfold progress_hook
  rw [h]
  simp

theorem cancel_downloads_cancelled (st : AppState) :
    (cancel_downloads st).cancelled = true := rfl

theorem append_ne_done (m : String) : ("error: " ++ m) ≠ "done" := by
  intro h
  have hl : ("error: " ++ m).length = ("done" : String).length := by rw [h]
  rw [String.length_append] at hl
  have h7 : ("error: " : String).length = 7 := rfl
  have h4 : ("done" : String).length = 4 := rfl
  omega

theorem append_ne_skipped (m : String) :
    ("error: " ++ m) ≠ "skipped (exists)" := by
  intro h
  have hd : ("error: " ++ m).data = ("skipped (exists)" : String).data :=
    congrArg String.data h
  have hsplit : ("error: " ++ m).data = ("error: " : String).data ++ m.data := rfl
  rw [hsplit] at hd
  have he : ("error: " : String).data = ['e', 'r', 'r', 'o', 'r', ':', ' '] := rfl
  have hs : ("skipped (exists)" : String).data =
      ['s', 'k', 'i', 'p', 'p', 'e', 'd', ' ', '(', 'e', 'x', 'i', 's', 't', 's', ')'] := rfl
  rw [he, hs] at hd
  simp at hd

theorem update_row_item_progress_none (i : Nat) (t : Option String)
    (s : Option String) (st : AppState) :
    (_update_row i t none s st).item_progress = st.item_progress := by
  unfold _update_row
  cases h : dictGet i st.rows
  · rfl
  · cases s <;> simp [ugp_item_progress]

theorem update_row_global_mean (i : Nat) (t : Option String) (p : Option ℚ)
    (s : Option String) (st : AppState) (r : Row) (h : dictGet i st.rows = some r) :
    (_update_row i t p s st).global_progress =
      (if (_update_row i t p s st).item_progress.isEmpty then 0
       else ((_update_row i t p s st).item_progress.map Prod.snd).sum /
            ((_update_row i t p s st).item_progress.length : ℚ)) := by
  simp only [_update_row, h]
  cases p <;> cases s <;> simp [ugp_global, ugp_item_progress]

theorem set_item_path_rows (i : Nat) (p : String) (st : AppState) :
    (_set_item_path i p st).rows = st.rows := rfl

theorem foldl_add_rows (entries : List Entry) (s : AppState) :
    (entries.foldl
      (fun s e =>
        match childRow e with
        | none => s
        | some (t, u) => (_add_row t u 0 "pending" s).1) s).rows =
      s.rows ++ addedRows s.nextId entries := by
  induction entries generalizing s with
  | nil => simp [addedRows]
  | cons e rest ih =>
      rw [List.foldl_cons]
      cases hc : childRow e with
      | none => simp only [hc, addedRows, ih s]
      | some tu =>
          obtain ⟨t, u⟩ := tu
          rw [ih ((_add_row t u 0 "pending" s).1)]
          simp [addedRows, hc, _add_row, List.append_assoc]

theorem addedRows_length (n : Nat) (entries : List Entry) :
    (addedRows n entries).length =
      (entries.filter (fun e => (childRow e).isSome)).length := by
  induction entries generalizing n with
  | nil => rfl
  | cons e rest ih =>
      cases hc : childRow e with
      | none => simp [addedRows, hc, List.filter_cons, ih]
      | some tu => simp [addedRows, hc, List.filter_cons, ih]

/-- C6: the global progress recomputed after any row update equals the
unweighted arithmetic mean of all tracked item progress values (whatever
their states), and `_update_global_progress` yields 0 on an empty
registry. -/
theorem C6_global_progress_is_mean (st : AppState) (i : Nat) (r : Row)
    (t : Option String) (p : Option ℚ) (s : Option String) (st0 : AppState)
    (h : dictGet i st.rows = some r) (h0 : st0.item_progress = []) :
    ((_update_row i t p s st).global_progress =
      (if (_update_row i t p s st).item_progress.isEmpty then 0
       else ((_update_row i t p s st).item_progress.map Prod.snd).sum /
            ((_update_row i t p s st).item_progress.length : ℚ))) ∧
    (_update_global_progress st0).global_progress = 0 := by
  constructor
  · exact update_row_global_mean i t p s st r h
  · simp [_update_global_progress, h0]

/-- Witness for C6 at a concrete one-row registry and update. -/
theorem C6_witness :
    ((_update_row 0 none (some 100) (some "done") exState).global_progress =
      (if (_update_row 0 none (some 100) (some "done") exState).item_progress.isEmpty
       then 0
       else ((_update_row 0 none (some 100) (some "done")
              exState).item_progress.map Prod.snd).sum /
            (((_update_row 0 none (some 100) (some "done")
              exState).item_progress.length : ℚ)))) ∧
    (_update_global_progress
      { rows := [], item_paths := [], item_progress := [], cancelled := false,
        global_progress := 7, nextId := 0 }).global_progress = 0 :=
  C6_global_progress_is_mean exState 0 exRow none (some 100) (some "done")
    { rows := [], item_paths := [], item_progress := [], cancelled := false,
      global_progress := 7, nextId := 0 } rfl rfl

/-- C7: when flat extraction raises or returns `None`, `_process_url` keeps
the one placeholder item, only overwriting its title with the raw reference;
the url cell, the path dict and the progress dict are untouched, the row
count is unchanged (exactly one item for the reference), and no exception
escapes (the embedding is a total function on these outcomes). -/
theorem C7_resolution_failure_degrades (itemId : Nat) (url : String)
    (st : AppState) (r : Row) (res : ResolveResult)
    (hrow : dictGet itemId st.rows = some r)
    (hres : res = ResolveResult.raises ∨ res = ResolveResult.noneResult) :
    dictGet itemId (_process_url itemId url res st).rows =
      some { r with title := url } ∧
    (_process_url itemId url res st).rows.length = st.rows.length ∧
    (_process_url itemId url res st).item_paths = st.item_paths ∧
    (_process_url itemId url res st).item_progress = st.item_progress := by
  have main : ∀ st2 : AppState, dictGet itemId st2.rows = some r →
      dictGet itemId (_update_row itemId (some url) none none st2).rows =
        some { r with title := url } ∧
      (_update_row itemId (some url) none none st2).rows.length =
        st2.rows.length ∧
      (_update_row itemId (some url) none none st2).item_paths =
        st2.item_paths ∧
      (_update_row itemId (some url) none none st2).item_progress =
        st2.item_progress := by
    intro st2 h2
    refine ⟨?_, ?_, update_row_item_paths _ _ _ _ _,
      update_row_item_progress_none _ _ _ _⟩
    · rw [dictGet_update_row_self, h2]
      rfl
    · rw [update_row_rows _ _ _ _ _ _ h2]
      exact length_dictSet_of_mem _ _ _ _ h2
  rcases hres with h | h <;> subst h <;> exact main st hrow

/-- Witness for C7 at a concrete failing resolution. -/
theorem C7_witness :
    dictGet 0 (_process_url 0 "https://w/v" ResolveResult.raises exState).rows =
      some { exRow with title := "https://w/v" } ∧
    (_process_url 0 "https://w/v" ResolveResult.raises exState).rows.length =
      exState.rows.length ∧
    (_process_url 0 "https://w/v" ResolveResult.raises exState).item_paths =
      exState.item_paths ∧
    (_process_url 0 "https://w/v" ResolveResult.raises exState).item_progress =
      exState.item_progress :=
  C7_resolution_failure_degrades 0 "https://w/v" exState exRow
    ResolveResult.raises rfl (Or.inl rfl)

/-- C8: a queued item whose cancellation is already requested and for which
the Locator finds nothing is recorded as `cancelled` and the external fetch
engine is never invoked (`_download_item` reports the engine as not
called). -/
theorem C8_queued_cancelled_skips_engine (extractId : String → Option String)
    (destFiles : List String) (itemId : Nat) (url : String) (run : FetchRun)
    (st : AppState) (r : Row)
    (hc : st.cancelled = true)
    (hfind : find_existing_path extractId url destFiles = none)
    (hrow : dictGet itemId st.rows = some r) :
    (_download_item extractId destFiles itemId url run st).2 = false ∧
    dictGet itemId (_download_item extractId destFiles itemId url run st).1.rows =
      some { r with progress := 0, status := "cancelled" } := by
  simp only [_download_item, hfind, hc, if_true]
  refine ⟨trivial, ?_⟩
  rw [dictGet_update_row_self, hrow]
  rfl

/-- Witness for C8 at a concrete cancelled registry. -/
theorem C8_witness :
    (_download_item (fun _ => none) [] 0 "https://w/v"
        { steps := [], result := Except.ok "f" } exStateCancelled).2 = false ∧
    dictGet 0 (_download_item (fun _ => none) [] 0 "https://w/v"
        { steps := [], result := Except.ok "f" } exStateCancelled).1.rows =
      some { exRow with progress := 0, status := "cancelled" } :=
  C8_queued_cancelled_skips_engine (fun _ => none) [] 0 "https://w/v"
    { steps := [], result := Except.ok "f" } exStateCancelled exRow rfl rfl rfl

/-- C9: whichever branch `_download_item` takes, if the item ends in status
`done` or `skipped (exists)` then its `item_paths` entry holds a concrete
path — the path is always recorded by `_set_item_path` before the status
update, so no code path records these statuses with the output path
unset. -/
theorem C9_done_or_skipped_has_path (extractId : String → Option String)
    (destFiles : List String) (itemId : Nat) (url : String) (run : FetchRun)
    (st : AppState) (r2 : Row)
    (h2 : dictGet itemId
        (_download_item extractId destFiles itemId url run st).1.rows = some r2)
    (hs : r2.status = "done" ∨ r2.status = "skipped (exists)") :
    ∃ p, dictGet itemId
        (_download_item extractId destFiles itemId url run st).1.item_paths =
      some (some p) := by
  cases hfind : find_existing_path extractId url destFiles with
  | some p =>
      refine ⟨p, ?_⟩
      simp only [_download_item, hfind]
      rw [update_row_item_paths]
      exact dictGet_dictSet_self itemId (some p) st.item_paths
  | none =>
      simp only [_download_item, hfind] at h2 ⊢
      by_cases hc : st.cancelled
      · rw [if_pos hc] at h2
        rw [dictGet_update_row_self] at h2
        cases hr : dictGet itemId st.rows with
        | none => rw [hr] at h2; exact absurd h2 (by simp)
        | some r =>
            rw [hr] at h2
            have hst : r2.status = "cancelled" := by
              rw [← Option.some.inj h2]
              rfl
            rw [hst] at hs
            rcases hs with h | h <;> exact absurd h (by decide)
      · rw [if_neg hc] at h2 ⊢
        set q := processSteps itemId run.steps st with hq
        obtain ⟨st', mo⟩ := q
        cases mo with
        | some m =>
            dsimp only at h2
            rw [dictGet_update_row_self] at h2
            cases hr : dictGet itemId st'.rows with
            | none => rw [hr] at h2; exact absurd h2 (by simp)
            | some r =>
                rw [hr] at h2
                have hst : r2.status = "error: " ++ m := by
                  rw [← Option.some.inj h2]
                  rfl
                rw [hst] at hs
                rcases hs with h | h
                · exact absurd h (append_ne_done m)
                · exact absurd h (append_ne_skipped m)
        | none =>
            dsimp only at h2 ⊢
            cases hres : run.result with
            | ok filename =>
                dsimp only at h2 ⊢
                refine ⟨with_suffix_mp3 filename, ?_⟩
                rw [update_row_item_paths]
                exact dictGet_dictSet_self itemId _ st'.item_paths
            | error m =>
                rw [hres] at h2
                rw [dictGet_update_row_self] at h2
                cases hr : dictGet itemId st'.rows with
                | none => rw [hr] at h2; exact absurd h2 (by simp)
                | some r =>
                    rw [hr] at h2
                    have hst : r2.status = "error: " ++ m := by
                      rw [← Option.some.inj h2]
                      rfl
                    rw [hst] at hs
                    rcases hs with h | h
                    · exact absurd h (append_ne_done m)
                    · exact absurd h (append_ne_skipped m)

/-- Witness for C9: a successful engine run records a path alongside
`done`. -/
theorem C9_witness :
    ∃ p, dictGet 0 (_download_item (fun _ => none) [] 0 "https://w/v"
        { steps := [], result := Except.ok "Title.webm" } exState).1.item_paths =
      some (some p) :=
  C9_done_or_skipped_has_path (fun _ => none) [] 0 "https://w/v"
    { steps := [], result := Except.ok "Title.webm" } exState
    { exRow with progress := 100, status := "done" } (by decide) (Or.inl rfl)

/-- C10: when the Locator finds an existing file, the skip path records that
path, sets the item progress to 100 (in the row and in `item_progress`),
and the recomputed global progress is again the mean over all tracked
items, so the skipped item contributes a full 100 to it exactly as a
completed one. -/
theorem C10_skip_counts_as_full (extractId : String → Option String)
    (destFiles : List String) (itemId : Nat) (url : String) (run : FetchRun)
    (st : AppState) (r : Row) (p : String)
    (hfind : find_existing_path extractId url destFiles = some p)
    (hrow : dictGet itemId st.rows = some r) :
    dictGet itemId (_download_item extractId destFiles itemId url run st).1.rows =
      some { r with progress := 100, status := "skipped (exists)" } ∧
    dictGet itemId
        (_download_item extractId destFiles itemId url run st).1.item_progress =
      some 100 ∧
    dictGet itemId
        (_download_item extractId destFiles itemId url run st).1.item_paths =
      some (some p) ∧
    (_download_item extractId destFiles itemId url run st).1.global_progress =
      (if (_download_item extractId destFiles itemId url run st).1.item_progress.isEmpty
       then 0
       else ((_download_item extractId destFiles itemId url
              run st).1.item_progress.map Prod.snd).sum /
            (((_download_item extractId destFiles itemId url
              run st).1.item_progress.length : ℚ))) := by
  have hrow2 : dictGet itemId (_set_item_path itemId p st).rows = some r := hrow
  simp only [_download_item, hfind]
  refine ⟨?_, ?_, ?_, ?_⟩
  · rw [dictGet_update_row_self, hrow2]
    rfl
  · rw [update_row_item_progress _ _ _ _ _ _ hrow2]
    exact dictGet_dictSet_self itemId 100 _
  · rw [update_row_item_paths]
    exact dictGet_dictSet_self itemId (some p) st.item_paths
  · exact update_row_global_mean _ _ _ _ _ _ hrow2

/-- Witness for C10 at a concrete registry and directory. -/
theorem C10_witness :
    dictGet 0 (_download_item (fun _ => some "abc") ["abc - Title.mp3"] 0
        "https://w/v" { steps := [], result := Except.ok "f" } exState).1.rows =
      some { exRow with progress := 100, status := "skipped (exists)" } ∧
    dictGet 0 (_download_item (fun _ => some "abc") ["abc - Title.mp3"] 0
        "https://w/v" { steps := [], result := Except.ok "f" } exState).1.item_progress =
      some 100 ∧
    dictGet 0 (_download_item (fun _ => some "abc") ["abc - Title.mp3"] 0
        "https://w/v" { steps := [], result := Except.ok "f" } exState).1.item_paths =
      some (some "abc - Title.mp3") ∧
    (_download_item (fun _ => some "abc") ["abc - Title.mp3"] 0
        "https://w/v" { steps := [], result := Except.ok "f" } exState).1.global_progress =
      (if (_download_item (fun _ => some "abc") ["abc - Title.mp3"] 0
          "https://w/v" { steps := [], result := Except.ok "f" }
          exState).1.item_progress.isEmpty
       then 0
       else ((_download_item (fun _ => some "abc") ["abc - Title.mp3"] 0
              "https://w/v" { steps := [], result := Except.ok "f" }
              exState).1.item_progress.map Prod.snd).sum /
            (((_download_item (fun _ => some "abc") ["abc - Title.mp3"] 0
              "https://w/v" { steps := [], result := Except.ok "f" }
              exState).1.item_progress.length : ℚ))) :=
  C10_skip_counts_as_full (fun _ => some "abc") ["abc - Title.mp3"] 0
    "https://w/v" { steps := [], result := Except.ok "f" } exState exRow
    "abc - Title.mp3" (by decide) rfl

/-- C1 fails on the code: an item downloading at progress 40 whose next
checkpoint observes a requested cancellation ends in status
`error: User cancelled` with progress reset to 0 — not in `cancelled`
with progress still 40 as the claim states (the `DownloadCancelled`
raised by the hook is swallowed by the generic `except Exception` arm
of `_download_item`, lines 288-289). -/
theorem C1_counterexample :
    dictGet 0 ((_download_item (fun _ => none) [] 0 "https://w/v"
        { steps := [FetchStep.hook exHook40, FetchStep.userCancel,
                    FetchStep.hook exHook40],
          result := Except.ok "f" }
        { rows := [(0, { title := "Title", url := "https://w/v", progress := 0,
                         status := "queued" })],
          item_paths := [(0, none)], item_progress := [(0, 0)],
          cancelled := false, global_progress := 0, nextId := 1 }).1).rows =
      some { title := "Title", url := "https://w/v", progress := 0,
             status := "error: User cancelled" } ∧
    dictGet 0 ((_download_item (fun _ => none) [] 0 "https://w/v"
        { steps := [FetchStep.hook exHook40, FetchStep.userCancel,
                    FetchStep.hook exHook40],
          result := Except.ok "f" }
        { rows := [(0, { title := "Title", url := "https://w/v", progress := 0,
                         status := "queued" })],
          item_paths := [(0, none)], item_progress := [(0, 0)],
          cancelled := false, global_progress := 0, nextId := 1 }).1).item_progress =
      some 0 := by
  decide

/-- C1 as amended: when cancellation is requested mid-fetch (after a prefix
of hook events that did not raise) and the engine reaches one more
checkpoint, the raised cancellation signal is caught by the generic
per-item exception handler, which records status `error: User cancelled`
(never `cancelled`) and resets the item progress to 0 rather than leaving
it at its last observed value. -/
theorem C1_midfetch_cancel_becomes_error (extractId : String → Option String)
    (destFiles : List String) (itemId : Nat) (url : String)
    (pre rest : List FetchStep) (d : HookEvent) (res : Except String String)
    (st st1 : AppState) (r : Row)
    (hfind : find_existing_path extractId url destFiles = none)
    (hc : st.cancelled = false)
    (hpre : processSteps itemId pre st = (st1, none))
    (hrow : dictGet itemId st1.rows = some r) :
    (_download_item extractId destFiles itemId url
        { steps := pre ++ FetchStep.userCancel :: FetchStep.hook d :: rest,
          result := res } st).2 = true ∧
    dictGet itemId (_download_item extractId destFiles itemId url
        { steps := pre ++ FetchStep.userCancel :: FetchStep.hook d :: rest,
          result := res } st).1.rows =
      some { r with progress := 0, status := "error: User cancelled" } ∧
    dictGet itemId (_download_item extractId destFiles itemId url
        { steps := pre ++ FetchStep.userCancel :: FetchStep.hook d :: rest,
          result := res } st).1.item_progress = some 0 := by
  have hsteps : processSteps itemId
      (pre ++ FetchStep.userCancel :: FetchStep.hook d :: rest) st =
      (cancel_downloads st1, some "User cancelled") := by
    rw [processSteps_append, hpre]
    simp only [processSteps]
    rw [progress_hook_of_cancelled itemId d (cancel_downloads st1)
        (cancel_downloads_cancelled st1)]
  have hrow2 : dictGet itemId (cancel_downloads st1).rows = some r := hrow
  simp only [_download_item, hfind, hc, Bool.false_eq_true, if_false, hsteps]
  refine ⟨trivial, ?_, ?_⟩
  · rw [dictGet_update_row_self, hrow2]
    have : ("error: " ++ "User cancelled" : String) = "error: User cancelled" := rfl
    rw [this]
    rfl
  · rw [update_row_item_progress _ _ _ _ _ _ hrow2]
    exact dictGet_dictSet_self itemId 0 _

/-- Witness for the amended C1, at a concrete registry mid-download. -/
theorem C1_witness :
    (_download_item (fun _ => none) [] 0 "https://w/v"
        { steps := [] ++ FetchStep.userCancel :: FetchStep.hook exHook40 :: [],
          result := Except.ok "f" } exState).2 = true ∧
    dictGet 0 (_download_item (fun _ => none) [] 0 "https://w/v"
        { steps := [] ++ FetchStep.userCancel :: FetchStep.hook exHook40 :: [],
          result := Except.ok "f" } exState).1.rows =
      some { exRow with progress := 0, status := "error: User cancelled" } ∧
    dictGet 0 (_download_item (fun _ => none) [] 0 "https://w/v"
        { steps := [] ++ FetchStep.userCancel :: FetchStep.hook exHook40 :: [],
          result := Except.ok "f" } exState).1.item_progress = some 0 :=
  C1_midfetch_cancel_becomes_error (fun _ => none) [] 0 "https://w/v"
    [] [] exHook40 (Except.ok "f") exState exState exRow rfl rfl rfl rfl

/-- C2 fails on the code: with a cancellation still pending, `_retry_item`
does not clear the process-wide flag, and the retried item's fresh attempt
is immediately recorded as `cancelled` without fetching — so a previously
requested cancellation does affect the retried item. -/
theorem C2_counterexample :
    (_retry_item 0 exErrorStateCancelled).cancelled = true ∧
    dictGet 0 ((_download_item (fun _ => none) [] 0 "https://w/v"
        { steps := [], result := Except.ok "f" }
        (_retry_item 0 exErrorStateCancelled)).1).rows =
      some { title := "Title", url := "https://w/v", progress := 0,
             status := "cancelled" } ∧
    (_download_item (fun _ => none) [] 0 "https://w/v"
        { steps := [], result := Except.ok "f" }
        (_retry_item 0 exErrorStateCancelled)).2 = false := by
  decide

/-- C2 as amended: starting a new batch run on a nonempty registry clears
the process-wide cancellation flag, but retrying a single item leaves the
flag exactly as it was, so a pending cancellation does carry over into the
retried item's attempt. -/
theorem C2_only_batch_start_clears_flag (st st2 : AppState) (itemId : Nat)
    (h : st.rows ≠ []) :
    (start_downloads st).cancelled = false ∧
    (_retry_item itemId st2).cancelled = st2.cancelled := by
  constructor
  · unfold start_downloads
    have hne : (st.rows.map Prod.fst).isEmpty = false := by
      cases hr : st.rows with
      | nil => exact absurd hr h
      | cons a l => rfl
    simp only [hne, Bool.false_eq_true, if_false]
  · exact update_row_cancelled itemId none (some 0) (some "queued") st2

/-- Witness for the amended C2 at concrete registries. -/
theorem C2_witness :
    (start_downloads exState).cancelled = false ∧
    (_retry_item 0 exErrorStateCancelled).cancelled =
      exErrorStateCancelled.cancelled :=
  C2_only_batch_start_clears_flag exState exErrorStateCancelled 0 (by decide)

/-- C3 fails on the code: a directory holding a file that begins with the
prefix `"<id> - "` but does not end in `.mp3` makes the Locator return
not-found, while the claim (any extension accepted) demands that file. -/
theorem C3_counterexample :
    find_existing_path (fun _ => some "abc") "https://w/v"
      ["abc - Song.m4a"] = none ∧
    strHasPrefix ("abc" ++ " - ") "abc - Song.m4a" = true := by
  decide

/-- C3 as amended: when the stable id is derivable, the Locator returns the
first file of the directory whose name both begins with `"<id> - "` and
ends with `".mp3"` (any returned file is in the directory and matches
both), and returns not-found exactly when no file matches both; when the
id cannot be derived it fails closed to not-found. -/
theorem C3_locator_requires_mp3 (extractId : String → Option String)
    (url vid : String) (destFiles : List String)
    (hvid : extractId url = some vid) :
    (∀ p, find_existing_path extractId url destFiles = some p →
        p ∈ destFiles ∧ strHasPrefix (vid ++ " - ") p = true ∧
        strHasSuffix ".mp3" p = true) ∧
    (find_existing_path extractId url destFiles = none ↔
        ∀ f ∈ destFiles, ¬(strHasPrefix (vid ++ " - ") f = true ∧
          strHasSuffix ".mp3" f = true)) ∧
    (∀ (g : String → Option String) (u : String) (fs : List String),
        g u = none → find_existing_path g u fs = none) := by
  refine ⟨?_, ?_, ?_⟩
  · intro p hp
    unfold find_existing_path at hp
    rw [hvid] at hp
    have hmem := List.mem_of_find?_eq_some hp
    have hpred := List.find?_some hp
    rw [Bool.and_eq_true] at hpred
    exact ⟨hmem, hpred.1, hpred.2⟩
  · unfold find_existing_path
    rw [hvid]
    rw [List.find?_eq_none]
    constructor
    · intro hall f hf hand
      exact hall f hf (by rw [Bool.and_eq_true]; exact hand)
    · intro hall f hf hand
      rw [Bool.and_eq_true] at hand
      exact hall f hf hand
  · intro g u fs hg
    unfold find_existing_path
    rw [hg]

/-- Witness for the amended C3 at a concrete directory. -/
theorem C3_witness :
    "abc - S.mp3" ∈ ["x.txt", "abc - S.mp3"] ∧
    strHasPrefix ("abc" ++ " - ") "abc - S.mp3" = true ∧
    strHasSuffix ".mp3" "abc - S.mp3" = true :=
  (C3_locator_requires_mp3 (fun _ => some "abc") "https://w/v" "abc"
      ["x.txt", "abc - S.mp3"] rfl).1 "abc - S.mp3" (by decide)

/-- C4 fails on the code: a playlist with one child entry that exposes
neither a `url` nor an `id` yields zero new items (the entry is skipped by
the `continue`), not exactly one item per child entry; the placeholder is
still removed, leaving the registry empty. -/
theorem C4_counterexample :
    ((_process_url 0 "P" (ResolveResult.ok
        { typ := some "playlist",
          entries := some [{ url := none, id := none, title := some "Child" }],
          title := some "PL" }) exPlaceholderState).rows).length = 0 ∧
    ([{ url := none, id := none, title := some "Child" }] : List Entry).length
      = 1 := by
  decide

/-- C4 as amended: for a reference resolving as a playlist with a truthy
entry list, the placeholder row is removed and exactly one new pending row
is appended per child entry whose `url`-or-`id` is truthy (shorthand ids
expanded to full watch URLs, titles falling back to the expanded
reference); entries without a usable reference are dropped, so the number
of new rows is the number of such usable entries. -/
theorem C4_playlist_expansion (itemId : Nat) (url : String) (info : InfoDict)
    (st : AppState) (h1 : info.typ = some "playlist")
    (h2 : info.entries.getD [] ≠ []) :
    (_process_url itemId url (ResolveResult.ok info) st).rows =
      dictPop itemId st.rows ++ addedRows st.nextId (info.entries.getD []) ∧
    (addedRows st.nextId (info.entries.getD [])).length =
      ((info.entries.getD []).filter (fun e => (childRow e).isSome)).length := by
  constructor
  · simp only [_process_url]
    rw [if_pos (And.intro h1 h2)]
    rw [foldl_add_rows]
    rfl
  · exact addedRows_length st.nextId (info.entries.getD [])

/-- Witness for the amended C4: one full-url entry, one shorthand entry and
one unusable entry yield exactly two new rows. -/
theorem C4_witness :
    (_process_url 0 "P" (ResolveResult.ok
        { typ := some "playlist",
          entries := some
            [{ url := some "https://w/a", id := none, title := some "A" },
             { url := none, id := some "xyz", title := none },
             { url := none, id := none, title := some "ghost" }],
          title := some "PL" }) exPlaceholderState).rows =
      dictPop 0 exPlaceholderState.rows ++
        addedRows exPlaceholderState.nextId
          [{ url := some "https://w/a", id := none, title := some "A" },
           { url := none, id := some "xyz", title := none },
           { url := none, id := none, title := some "ghost" }] ∧
    (addedRows exPlaceholderState.nextId
        [{ url := some "https://w/a", id := none, title := some "A" },
         { url := none, id := some "xyz", title := none },
         { url := none, id := none, title := some "ghost" }]).length =
      (([{ url := some "https://w/a", id := none, title := some "A" },
          { url := none, id := some "xyz", title := none },
          { url := none, id := none, title := some "ghost" }] : List Entry).filter
        (fun e => (childRow e).isSome)).length :=
  C4_playlist_expansion 0 "P"
    { typ := some "playlist",
      entries := some
        [{ url := some "https://w/a", id := none, title := some "A" },
         { url := none, id := some "xyz", title := none },
         { url := none, id := none, title := some "ghost" }],
      title := some "PL" } exPlaceholderState rfl (by decide)

/-- C5 fails on the code: from a batch of four items all dispatched by the
pool, one retry thread started by `_retry_item` brings the number of
concurrently running `_download_item` invocations to five, exceeding the
configured `MAX_WORKERS = 4` — retries run on dedicated threads outside
the executor, so they do consume capacity beyond the W-wide limit. -/
theorem C5_counterexample :
    SchedReachable (initSched [1, 2, 3, 4])
      { pendingBatch := [], activeBatch := [4, 3, 2, 1], activeRetry := [9] } ∧
    activeCount
      { pendingBatch := [], activeBatch := [4, 3, 2, 1], activeRetry := [9] } =
      MAX_WORKERS + 1 := by
  constructor
  · have h1 : SchedStep (initSched [1, 2, 3, 4])
        { pendingBatch := [2, 3, 4], activeBatch := [1], activeRetry := [] } :=
      SchedStep.dispatch (initSched [1, 2, 3, 4]) 1 (by decide) (by decide)
    have h2 : SchedStep
        { pendingBatch := [2, 3, 4], activeBatch := [1], activeRetry := [] }
        { pendingBatch := [3, 4], activeBatch := [2, 1], activeRetry := [] } :=
      SchedStep.dispatch _ 2 (by decide) (by decide)
    have h3 : SchedStep
        { pendingBatch := [3, 4], activeBatch := [2, 1], activeRetry := [] }
        { pendingBatch := [4], activeBatch := [3, 2, 1], activeRetry := [] } :=
      SchedStep.dispatch _ 3 (by decide) (by decide)
    have h4 : SchedStep
        { pendingBatch := [4], activeBatch := [3, 2, 1], activeRetry := [] }
        { pendingBatch := [], activeBatch := [4, 3, 2, 1], activeRetry := [] } :=
      SchedStep.dispatch _ 4 (by decide) (by decide)
    have h5 : SchedStep
        { pendingBatch := [], activeBatch := [4, 3, 2, 1], activeRetry := [] }
        { pendingBatch := [], activeBatch := [4, 3, 2, 1], activeRetry := [9] } :=
      SchedStep.startRetry _ 9
    exact Relation.ReflTransGen.head h1 (Relation.ReflTransGen.head h2
      (Relation.ReflTransGen.head h3 (Relation.ReflTransGen.head h4
        (Relation.ReflTransGen.head h5 Relation.ReflTransGen.refl))))
  · decide

/-- C5 as amended: the executor half of the bound does hold — in every
snapshot reachable from the start of a batch, at most `MAX_WORKERS` items
run on pool workers concurrently, regardless of batch size; retry threads
are additional and unbounded by the pool. -/
theorem C5_pool_bounds_batch_workers (batch : List Nat) (s : Sched)
    (h : SchedReachable (initSched batch) s) :
    s.activeBatch.length ≤ MAX_WORKERS := by
  induction h with
  | refl => simp [initSched, MAX_WORKERS]
  | tail hsteps hstep ih =>
      cases hstep with
      | dispatch i hm hW =>
          simp only [List.length_cons]
          omega
      | finishBatch i hm =>
          exact le_trans (List.Sublist.length_le (List.erase_sublist _ _)) ih
      | startRetry i => exact ih
      | finishRetry i hm => exact ih

/-- Witness for the amended C5 at the initial snapshot of a batch. -/
theorem C5_witness :
    (initSched [1, 2, 3, 4, 5]).activeBatch.length ≤ MAX_WORKERS :=
  C5_pool_bounds_batch_workers [1, 2, 3, 4, 5] (initSched [1, 2, 3, 4, 5])
    Relation.ReflTransGen.refl
